import Mathlib

/-
Verification of scripts/get_data.py: a shallow embedding of the World Bank
indicator figure builder (return_figures) together with its helpers, and
proofs of the specification claims about it. The HTTP collaborator is
modelled as a function from URL strings to optional response record lists
(none standing for any request or parse failure caught by the bare except
block). The numeric observation value is carried opaquely as an optional
integer token: the code never computes with it, it only copies it into the
y lists of the chart series.
-/

set_option autoImplicit false

namespace GetData

/-- Runtime errors that can escape the function. The bare except block only
guards the request and the JSON extraction, not the statements after it. -/
inductive PyError where
  | nameError
  | typeError
  | indexError
  | keyError
  deriving DecidableEq

/-- A JSON field of an observation that is either still the nested object
(of which only its display value entry matters downstream) or an already
flattened plain string. -/
inductive JField where
  | obj (value : String)
  | str (value : String)
  deriving DecidableEq

/-- One observation object of an API response before flattening: nested
indicator and country fields, a date string and a nullable numeric value. -/
structure RawRecord where
  indicator : JField
  country : JField
  date : String
  value : Option Int
  deriving DecidableEq

/-- One flattened observation, as stored into the data_frames list. -/
structure Record where
  indicator : String
  country : String
  date : String
  value : Option Int
  deriving DecidableEq

/-- Display value of a field, whichever constructor holds it. -/
def JField.val : JField → String
  | JField.obj v => v
  | JField.str v => v

/-- Check that both nested fields of a record are still JSON objects. -/
def nestedRec (r : RawRecord) : Bool :=
  match r.indicator, r.country with
  | JField.obj _, JField.obj _ => true
  | _, _ => false

/-- All records of a response still have nested object fields, which is the
shape of a fresh World Bank API response. -/
def allNested (rs : List RawRecord) : Bool := rs.all nestedRec

/-- Total flattening used to express results. -/
def flattenPure (r : RawRecord) : Record :=
  ⟨r.indicator.val, r.country.val, r.date, r.value⟩

/-- Flattening one record in the loop body. Indexing a plain string with a
key raises TypeError, which is what happens when the loop runs a second time
over records retained from a previous iteration. -/
def flattenRecord (r : RawRecord) : Except PyError Record :=
  match r.indicator, r.country with
  | JField.obj iv, JField.obj cv => Except.ok ⟨iv, cv, r.date, r.value⟩
  | _, _ => Except.error PyError.typeError

/-- Flattening a whole record list, the for loop over data. -/
def flattenList : List RawRecord → Except PyError (List Record)
  | [] => Except.ok []
  | r :: rs =>
    match flattenRecord r with
    | Except.error e => Except.error e
    | Except.ok fr =>
      match flattenList rs with
      | Except.error e => Except.error e
      | Except.ok frs => Except.ok (fr :: frs)

/-- ASCII lowering of a string, applied per character; models the lower
method the source calls on each ISO code. -/
def strToLower (s : String) : String := ⟨s.data.map Char.toLower⟩

/-- Lexicographic comparison of two strings by their character lists; models
the ascending order sort_values uses on the date column. -/
def strLt (a b : String) : Bool := decide (a.data < b.data)

/-- Module level default country mapping, an OrderedDict of display name to
ISO-3 code pairs. -/
def country_default : List (String × String) :=
  [("Canada", "CAN"), ("United States", "USA"), ("Brazil", "BRA"),
   ("France", "FRA"), ("India", "IND"), ("Italy", "ITA"), ("Germany", "DEU"),
   ("United Kingdom", "GBR"), ("China", "CHN"), ("Japan", "JPN")]

/-- Module level default list of World Bank indicator codes. -/
def indicators_default : List String :=
  ["EG.USE.ELEC.KH.PC", "EG.FEC.RNEW.ZS", "EG.USE.PCAP.KG.OE", "EN.ATM.GHGT.KT.CE"]

/-- country_filter: the ISO codes of the mapping, lower cased, joined with a
semicolon. -/
def country_filter (countries : List (String × String)) : String :=
  String.intercalate (";") ((countries.map Prod.snd).map strToLower)

/-- URL built for one indicator inside the loop. -/
def indicator_url (cf : String) (indicator : String) : String :=
  "http://api.worldbank.org/v2/country/" ++ cf ++ "/indicator/" ++ indicator ++
    "?date=1990:2015&per_page=1000&format=json"

/-- The urls list accumulated by the loop: one URL per indicator, in list
order. The source appends each URL and never reads the list again. -/
def urls_for (countries : List (String × String)) (indicators : List String) :
    List String :=
  indicators.map (indicator_url (country_filter countries))

/-- The request loop. For each indicator the URL is requested inside the try
block; on failure the except block merely logs, so the data variable keeps
the value of the previous iteration (or stays unset on the first one). The
flattening pass that follows runs outside the try block: it raises NameError
when data is unset, raises TypeError on the first record when data holds
non-empty already flattened records from a previous iteration, and is a
no-op when data holds an empty list. -/
def fetchLoop (http : String → Option (List RawRecord)) (cf : String) :
    List String → Option (List Record) → Except PyError (List (List Record))
  | [], _ => Except.ok []
  | indicator :: rest, dataVar =>
    match http (indicator_url cf indicator) with
    | some raw =>
      match flattenList raw with
      | Except.error e => Except.error e
      | Except.ok recs =>
        match fetchLoop http cf rest (some recs) with
        | Except.error e => Except.error e
        | Except.ok dfs => Except.ok (recs :: dfs)
    | none =>
      match dataVar with
      | none => Except.error PyError.nameError
      | some [] =>
        match fetchLoop http cf rest (some []) with
        | Except.error e => Except.error e
        | Except.ok dfs => Except.ok ([] :: dfs)
      | some (_ :: _) => Except.error PyError.typeError

/-- Record list a successful loop iteration contributes for one indicator:
the flattened records of the response the collaborator returns for its URL. -/
def respData (http : String → Option (List RawRecord)) (cf : String)
    (i : String) : List Record :=
  match http (indicator_url cf i) with
  | some raw => raw.map flattenPure
  | none => []

/-- Year subset of chart one: note 2014 where the other charts use 2015. -/
def years_one : List String :=
  ["1990", "1995", "2000", "2005", "2010", "2014"]

/-- Year subset of charts two, three and four (the source repeats this
literal list at each of the three charts). -/
def years_rest : List String :=
  ["1990", "1995", "2000", "2005", "2010", "2015"]

/-- Stable insertion of a record into a list already sorted by date. -/
def sortInsert (r : Record) : List Record → List Record
  | [] => [r]
  | x :: xs => if strLt x.date r.date then x :: sortInsert r xs else r :: x :: xs

/-- Stable ascending sort by the date column, modelling sort_values on the
date column of the frame. -/
def sortByDate (rows : List Record) : List Record := rows.foldr sortInsert []

/-- The per chart frame preparation: keep the rows whose date is in the
year subset, then sort by date. -/
def df_filtered (rows : List Record) (years : List String) : List Record :=
  sortByDate (rows.filter (fun r => decide (r.date ∈ years)))

/-- Unique elements in order of first appearance, given the elements already
seen; models the unique method on the country column. -/
def uniqueFirstSeen : List String → List String → List String
  | [], _ => []
  | x :: xs, seen =>
    if x ∈ seen then uniqueFirstSeen xs seen else x :: uniqueFirstSeen xs (x :: seen)

/-- countrylist: unique country names of the filtered, date sorted indicator
zero frame, in order of first appearance. The source computes it once from
df_one and reuses it for every chart. -/
def countrylist (d0 : List Record) : List String :=
  uniqueFirstSeen ((df_filtered d0 years_one).map Record.country) []

/-- Kind tag of a series: a scatter trace with its mode string, or a bar
trace. -/
inductive SeriesKind where
  | scatter (mode : String)
  | bar
  deriving DecidableEq

/-- One plotly series: x values, y values, display name and kind tag. -/
structure Series where
  x : List String
  y : List (Option Int)
  name : String
  kind : SeriesKind
  deriving DecidableEq

/-- Axis descriptor of a layout. -/
structure Axis where
  title : String
  deriving DecidableEq

/-- Layout descriptor of a figure; barmode is present only on the stacked
bar charts. -/
structure Layout where
  title : String
  xaxis : Axis
  yaxis : Axis
  barmode : Option String
  deriving DecidableEq

/-- One figure: the series list paired with the layout. -/
structure Figure where
  data : List Series
  layout : Layout
  deriving DecidableEq

/-- Series of one country on one chart: x and y are the date and value
columns of the frame rows whose country column equals the country. -/
def seriesFor (df : List Record) (kind : SeriesKind) (country : String) : Series :=
  ⟨(df.filter (fun r => r.country == country)).map Record.date,
   (df.filter (fun r => r.country == country)).map Record.value,
   country, kind⟩

/-- The loop appending one scatter series per country of the country list. -/
def graphLines (df : List Record) (cl : List String) : List Series :=
  cl.map (seriesFor df (SeriesKind.scatter ("lines+markers")))

/-- The loop appending one bar series per country of the country list. -/
def graphBars (df : List Record) (cl : List String) : List Series :=
  cl.map (seriesFor df SeriesKind.bar)

/-- Layout of chart one. -/
def layout_one : Layout :=
  ⟨"Electric power consumption 1990 to 2015<br>(kWh per capita)",
   ⟨"Year"⟩, ⟨"KWh (Thousand)"⟩, none⟩

/-- Layout of chart two, with the stacking flag. -/
def layout_two : Layout :=
  ⟨"% Renewable energy consumption 1990 to 2015",
   ⟨"Year"⟩, ⟨"% of total final energy"⟩, some ("stack")⟩

/-- Layout of chart three. -/
def layout_three : Layout :=
  ⟨"Energy use <br> (kg of oil equivalent per capita)",
   ⟨"Year"⟩, ⟨"Energy (Kg of oil)"⟩, none⟩

/-- Layout of chart four, with the stacking flag. -/
def layout_four : Layout :=
  ⟨"Total greenhouse gas emissions 1990-2015<br>(kt of CO2 equivalent)",
   ⟨"Year"⟩, ⟨"CO2 equivalents (kilo tonnes)"⟩, some ("stack")⟩

/-- The four figures in return order. Chart one uses the indicator zero
frame with the 2014 year subset; chart two the indicator one frame; chart
three again the indicator one frame (the source builds df_three from
data_frames at index one, not two); chart four the indicator three frame. -/
def chartFigures (d0 d1 d3 : List Record) : List Figure :=
  let df_one := df_filtered d0 years_one
  let cl := countrylist d0
  let graph_one := graphLines df_one cl
  let df_two := df_filtered d1 years_rest
  let graph_two := graphBars df_two cl
  let df_three := df_filtered d1 years_rest
  let graph_three := graphLines df_three cl
  let df_four := df_filtered d3 years_rest
  let graph_four := graphBars df_four cl
  [⟨graph_one, layout_one⟩, ⟨graph_two, layout_two⟩,
   ⟨graph_three, layout_three⟩, ⟨graph_four, layout_four⟩]

/-- The chart assembly phase over the accumulated data_frames list. A frame
index beyond the list raises IndexError; building a pandas frame from an
empty record list gives a frame without columns, so the date column access
of the year filter raises KeyError. Otherwise the four figures are built. -/
def chartPhase (data_frames : List (List Record)) : Except PyError (List Figure) :=
  match data_frames[0]? with
  | none => Except.error PyError.indexError
  | some d0 =>
    if d0.isEmpty then Except.error PyError.keyError else
    match data_frames[1]? with
    | none => Except.error PyError.indexError
    | some d1 =>
      if d1.isEmpty then Except.error PyError.keyError else
      match data_frames[3]? with
      | none => Except.error PyError.indexError
      | some d3 =>
        if d3.isEmpty then Except.error PyError.keyError else
        Except.ok (chartFigures d0 d1 d3)

/-- return_figures: request loop followed by the chart assembly phase. The
urls list the source also accumulates is modelled by urls_for; it is never
read after being built. -/
def return_figures (countries : List (String × String)) (indicators : List String)
    (http : String → Option (List RawRecord)) : Except PyError (List Figure) :=
  match fetchLoop http (country_filter countries) indicators none with
  | Except.error e => Except.error e
  | Except.ok data_frames => chartPhase data_frames

/-- Module state: the two module level default tables. The function only
reads them; modelling them as explicit state lets the idempotence claim be
stated across two successive calls. -/
structure ModuleState where
  country_default : List (String × String)
  indicators_default : List String
  deriving DecidableEq

/-- One call of return_figures with the optional arguments defaulted from
the module state. The call returns the module state next to the result;
nothing in the body writes to it, so it comes back unchanged. -/
def buildCall (s : ModuleState) (countriesArg : Option (List (String × String)))
    (indicatorsArg : Option (List String))
    (http : String → Option (List RawRecord)) :
    Except PyError (List Figure) × ModuleState :=
  (return_figures (countriesArg.getD s.country_default)
    (indicatorsArg.getD s.indicators_default) http, s)

/-- State threaded form of return_figures for the frame claim: the final
values of the two argument bindings are returned next to the result. The
body reads the countries values and iterates the indicators, but no
statement of the source assigns into either argument, so the translation
returns both exactly as they came in. -/
def return_figures_tracked (countries : List (String × String))
    (indicators : List String) (http : String → Option (List RawRecord)) :
    Except PyError (List Figure) × List (String × String) × List String :=
  (return_figures countries indicators http, countries, indicators)

/-- Kind tag of the first series of the first figure of a result, used by a
concrete counterexample. -/
def firstSeriesKind (res : Except PyError (List Figure)) : Option SeriesKind :=
  match res with
  | Except.ok (f :: _) =>
    match f.data with
    | s :: _ => some s.kind
    | [] => none
  | _ => none

/-- Sample record used by the concrete witnesses. -/
def rawCan90 : RawRecord :=
  ⟨JField.obj ("Electric power consumption"), JField.obj ("Canada"), "1990", some 10⟩

/-- Second sample record used by the concrete witnesses. -/
def rawBra95 : RawRecord :=
  ⟨JField.obj ("Electric power consumption"), JField.obj ("Brazil"), "1995", some 20⟩

/-- Sample country mapping used by the concrete witnesses. -/
def countriesW : List (String × String) := [("Canada", "CAN"), ("Brazil", "BRA")]

/-- Sample indicator codes used by the concrete witnesses. -/
def indicatorsW : List String := ["IND0", "IND1", "IND2", "IND3"]

/-- Collaborator returning the same two well formed records for every URL. -/
def httpW : String → Option (List RawRecord) := fun _ => some [rawCan90, rawBra95]

/-- Flattened form of the sample response. -/
def dW : List Record := List.map flattenPure [rawCan90, rawBra95]

/-- The figures the sample run produces. -/
def figsW : List Figure := chartFigures dW dW dW

/-- Collaborator that succeeds for indicator A and fails for every other
URL, exhibiting the stale record reuse failure. -/
def httpC6 : String → Option (List RawRecord) := fun url =>
  if url = indicator_url ("can") ("A") then some [rawCan90] else none

/-- Collaborator for which every request fails. -/
def httpNone : String → Option (List RawRecord) := fun _ => none

/-- Collaborator that returns an empty record list except for indicator B,
whose request fails. -/
def httpEmptyB : String → Option (List RawRecord) := fun url =>
  if url = indicator_url ("can") ("B") then none else some []

/-- Collaborator that returns one well formed record except for indicator B,
whose request fails. -/
def httpFailB : String → Option (List RawRecord) := fun url =>
  if url = indicator_url ("can") ("B") then none else some [rawCan90]

/-- Flattening a record whose fields are still nested objects succeeds and
gives the total flattening. -/
theorem flattenRecord_nested (r : RawRecord) (h : nestedRec r = true) :
    flattenRecord r = Except.ok (flattenPure r) := by
  cases r with
  | mk ind cty d v =>
    cases ind <;> cases cty <;>
      simp_all [nestedRec, flattenRecord, flattenPure, JField.val]

/-- Flattening a list of nested records succeeds record by record. -/
theorem flattenList_nested (rs : List RawRecord) (h : allNested rs = true) :
    flattenList rs = Except.ok (rs.map flattenPure) := by
  induction rs with
  | nil => rfl
  | cons r rest ih =>
    rw [allNested, List.all_cons, Bool.and_eq_true] at h
    simp [flattenList, flattenRecord_nested r h.1, ih h.2]

/-- When every indicator gets a well formed response, the loop succeeds and
collects the flattened response of each indicator, in order, whatever the
incoming state of the data variable. -/
theorem fetchLoop_all_ok (http : String → Option (List RawRecord)) (cf : String)
    (inds : List String)
    (h : ∀ i ∈ inds, ∃ raw, http (indicator_url cf i) = some raw ∧ allNested raw = true) :
    ∀ dataVar, fetchLoop http cf inds dataVar =
      Except.ok (inds.map (respData http cf)) := by
  induction inds with
  | nil => intro dataVar; rfl
  | cons i rest ih =>
    intro dataVar
    obtain ⟨raw, hraw, hnest⟩ := h i (List.mem_cons_self i rest)
    have hrest := fun j hj => h j (List.mem_cons_of_mem i hj)
    simp [fetchLoop, hraw, flattenList_nested raw hnest, ih hrest, respData]

/-- Mapping over a non-empty list gives a non-empty list. -/
theorem map_isEmpty_false {α β : Type} (f : α → β) (l : List α) (h : l ≠ []) :
    (l.map f).isEmpty = false := by
  cases l with
  | nil => exact absurd rfl h
  | cons a t => rfl

/-- Main computation helper: with well formed responses for all four
indicators (the first, second and fourth non-empty), return_figures
succeeds with the four figures built from the flattened responses of
indicators zero, one and three. -/
theorem return_figures_four
    (countries : List (String × String)) (i0 i1 i2 i3 : String)
    (http : String → Option (List RawRecord)) (raw0 raw1 raw2 raw3 : List RawRecord)
    (h0 : http (indicator_url (country_filter countries) i0) = some raw0)
    (h1 : http (indicator_url (country_filter countries) i1) = some raw1)
    (h2 : http (indicator_url (country_filter countries) i2) = some raw2)
    (h3 : http (indicator_url (country_filter countries) i3) = some raw3)
    (ha0 : allNested raw0 = true) (ha1 : allNested raw1 = true)
    (ha2 : allNested raw2 = true) (ha3 : allNested raw3 = true)
    (hn0 : raw0 ≠ []) (hn1 : raw1 ≠ []) (hn3 : raw3 ≠ []) :
    return_figures countries [i0, i1, i2, i3] http =
      Except.ok (chartFigures (raw0.map flattenPure) (raw1.map flattenPure)
        (raw3.map flattenPure)) := by
  have hf : fetchLoop http (country_filter countries) [i0, i1, i2, i3] none =
      Except.ok [raw0.map flattenPure, raw1.map flattenPure,
        raw2.map flattenPure, raw3.map flattenPure] := by
    simp [fetchLoop, h0, h1, h2, h3, flattenList_nested raw0 ha0,
      flattenList_nested raw1 ha1, flattenList_nested raw2 ha2,
      flattenList_nested raw3 ha3]
  have hc : chartPhase [raw0.map flattenPure, raw1.map flattenPure,
      raw2.map flattenPure, raw3.map flattenPure] =
      Except.ok (chartFigures (raw0.map flattenPure) (raw1.map flattenPure)
        (raw3.map flattenPure)) := by
    simp [chartPhase, map_isEmpty_false flattenPure raw0 hn0,
      map_isEmpty_false flattenPure raw1 hn1,
      map_isEmpty_false flattenPure raw3 hn3]
  rw [return_figures, hf]
  exact hc

/-- Inversion of the chart phase: a successful result determines the three
source frames and the figure list. -/
theorem chartPhase_ok_inv (data_frames : List (List Record)) (figs : List Figure)
    (h : chartPhase data_frames = Except.ok figs) :
    ∃ d0 d1 d3, data_frames[0]? = some d0 ∧ data_frames[1]? = some d1 ∧
      data_frames[3]? = some d3 ∧ figs = chartFigures d0 d1 d3 := by
  unfold chartPhase at h
  cases e0 : data_frames[0]? with
  | none => simp [e0] at h
  | some d0 =>
    rw [e0] at h
    cases hb0 : d0.isEmpty with
    | true => simp [hb0] at h
    | false =>
      simp only [hb0, Bool.false_eq_true, if_false] at h
      cases e1 : data_frames[1]? with
      | none => simp [e1] at h
      | some d1 =>
        rw [e1] at h
        cases hb1 : d1.isEmpty with
        | true => simp [hb1] at h
        | false =>
          simp only [hb1, Bool.false_eq_true, if_false] at h
          cases e3 : data_frames[3]? with
          | none => simp [e3] at h
          | some d3 =>
            rw [e3] at h
            cases hb3 : d3.isEmpty with
            | true => simp [hb3] at h
            | false =>
              simp only [hb3, Bool.false_eq_true, if_false,
                Except.ok.injEq] at h
              exact ⟨d0, d1, d3, rfl, rfl, rfl, h.symm⟩

/-- Inversion of return_figures: a successful result comes from a successful
loop followed by a successful chart phase. -/
theorem return_figures_ok_inv (countries : List (String × String))
    (indicators : List String) (http : String → Option (List RawRecord))
    (figs : List Figure)
    (h : return_figures countries indicators http = Except.ok figs) :
    ∃ dfs, fetchLoop http (country_filter countries) indicators none =
        Except.ok dfs ∧ chartPhase dfs = Except.ok figs := by
  unfold return_figures at h
  cases hf : fetchLoop http (country_filter countries) indicators none with
  | error e => rw [hf] at h; simp at h
  | ok dfs => rw [hf] at h; exact ⟨dfs, rfl, h⟩

/-- The names of the scatter series bundle are exactly the country list. -/
theorem graphLines_names (df : List Record) (cl : List String) :
    (graphLines df cl).map Series.name = cl := by
  have h : Series.name ∘ seriesFor df (SeriesKind.scatter ("lines+markers")) =
      fun c : String => c := rfl
  rw [graphLines, List.map_map, h]
  exact cl.map_id'

/-- The names of the bar series bundle are exactly the country list. -/
theorem graphBars_names (df : List Record) (cl : List String) :
    (graphBars df cl).map Series.name = cl := by
  have h : Series.name ∘ seriesFor df SeriesKind.bar = fun c : String => c := rfl
  rw [graphBars, List.map_map, h]
  exact cl.map_id'

/-- Every series of a scatter bundle carries the scatter kind with the
lines+markers mode string. -/
theorem graphLines_kind (df : List Record) (cl : List String) (s : Series)
    (hs : s ∈ graphLines df cl) : s.kind = SeriesKind.scatter ("lines+markers") := by
  simp [graphLines] at hs
  obtain ⟨c, hc, rfl⟩ := hs
  rfl

/-- Every series of a bar bundle carries the bar kind. -/
theorem graphBars_kind (df : List Record) (cl : List String) (s : Series)
    (hs : s ∈ graphBars df cl) : s.kind = SeriesKind.bar := by
  simp [graphBars] at hs
  obtain ⟨c, hc, rfl⟩ := hs
  rfl

/-- A member of a series bundle is the series of one listed country. -/
theorem mem_graph (df : List Record) (cl : List String) (k : SeriesKind)
    (s : Series) (hs : s ∈ cl.map (seriesFor df k)) :
    ∃ c, c ∈ cl ∧ s = seriesFor df k c := by
  simp [List.mem_map] at hs
  obtain ⟨c, hc, h⟩ := hs
  exact ⟨c, hc, h.symm⟩

/-- Every x value of a series comes from the date of a frame row. -/
theorem seriesFor_x_sub (df : List Record) (k : SeriesKind) (c : String)
    (x : String) (hx : x ∈ (seriesFor df k c).x) : ∃ r, r ∈ df ∧ r.date = x := by
  simp [seriesFor] at hx
  obtain ⟨r, ⟨hr, hc⟩, hd⟩ := hx
  exact ⟨r, hr, hd⟩

/-- Stable insertion preserves membership. -/
theorem mem_sortInsert (a r : Record) (l : List Record) :
    a ∈ sortInsert r l ↔ a = r ∨ a ∈ l := by
  induction l with
  | nil => simp [sortInsert]
  | cons x xs ih =>
    rw [sortInsert]
    split
    · simp only [List.mem_cons, ih]
      tauto
    · simp only [List.mem_cons]

/-- The date sort preserves membership. -/
theorem mem_sortByDate (a : Record) (l : List Record) :
    a ∈ sortByDate l ↔ a ∈ l := by
  induction l with
  | nil => simp [sortByDate]
  | cons x xs ih =>
    show a ∈ sortInsert x (sortByDate xs) ↔ _
    rw [mem_sortInsert, ih]
    exact (List.mem_cons).symm

/-- A row survives the per chart frame preparation exactly when it is an
input row whose date is in the year subset. -/
theorem mem_df_filtered (rows : List Record) (years : List String) (r : Record) :
    r ∈ df_filtered rows years ↔ r ∈ rows ∧ r.date ∈ years := by
  rw [df_filtered, mem_sortByDate, List.mem_filter]
  simp

/-- Every x value of a series of a bundle built over a filtered frame lies
in the year subset of that frame. -/
theorem graph_x_in_years (d : List Record) (ys : List String) (cl : List String)
    (k : SeriesKind) (s : Series) (hs : s ∈ cl.map (seriesFor (df_filtered d ys) k))
    (x : String) (hx : x ∈ s.x) : x ∈ ys := by
  obtain ⟨c, hc, rfl⟩ := mem_graph _ _ _ _ hs
  obtain ⟨r, hr, rfl⟩ := seriesFor_x_sub _ _ _ _ hx
  exact ((mem_df_filtered _ _ _).1 hr).2

/-- C1: for every countries mapping and indicators list, with mock responses
supplied for all four indicators, return_figures returns a list of exactly
four figure results, each a data and layout pair, in the fixed order chart
one (line, indicator zero), chart two (stacked bar, indicator one), chart
three (line), chart four (stacked bar, indicator three). -/
theorem C1_build_returns_four_figures
    (countries : List (String × String)) (i0 i1 i2 i3 : String)
    (http : String → Option (List RawRecord)) (raw0 raw1 raw2 raw3 : List RawRecord)
    (h0 : http (indicator_url (country_filter countries) i0) = some raw0)
    (h1 : http (indicator_url (country_filter countries) i1) = some raw1)
    (h2 : http (indicator_url (country_filter countries) i2) = some raw2)
    (h3 : http (indicator_url (country_filter countries) i3) = some raw3)
    (ha0 : allNested raw0 = true) (ha1 : allNested raw1 = true)
    (ha2 : allNested raw2 = true) (ha3 : allNested raw3 = true)
    (hn0 : raw0 ≠ []) (hn1 : raw1 ≠ []) (hn3 : raw3 ≠ []) :
    return_figures countries [i0, i1, i2, i3] http =
      Except.ok (chartFigures (raw0.map flattenPure) (raw1.map flattenPure)
        (raw3.map flattenPure)) ∧
    (chartFigures (raw0.map flattenPure) (raw1.map flattenPure)
      (raw3.map flattenPure)).length = 4 ∧
    (chartFigures (raw0.map flattenPure) (raw1.map flattenPure)
      (raw3.map flattenPure)).map Figure.layout =
      [layout_one, layout_two, layout_three, layout_four] ∧
    (chartFigures (raw0.map flattenPure) (raw1.map flattenPure)
      (raw3.map flattenPure)).map Figure.data =
      [graphLines (df_filtered (raw0.map flattenPure) years_one)
         (countrylist (raw0.map flattenPure)),
       graphBars (df_filtered (raw1.map flattenPure) years_rest)
         (countrylist (raw0.map flattenPure)),
       graphLines (df_filtered (raw1.map flattenPure) years_rest)
         (countrylist (raw0.map flattenPure)),
       graphBars (df_filtered (raw3.map flattenPure) years_rest)
         (countrylist (raw0.map flattenPure))] :=
  ⟨return_figures_four countries i0 i1 i2 i3 http raw0 raw1 raw2 raw3
    h0 h1 h2 h3 ha0 ha1 ha2 ha3 hn0 hn1 hn3, rfl, rfl, rfl⟩

/-- Witness for C1 at a concrete country mapping, indicator list and mock
collaborator. -/
theorem C1_witness :
    return_figures countriesW indicatorsW httpW = Except.ok (chartFigures dW dW dW) ∧
    (chartFigures dW dW dW).length = 4 ∧
    (chartFigures dW dW dW).map Figure.layout =
      [layout_one, layout_two, layout_three, layout_four] ∧
    (chartFigures dW dW dW).map Figure.data =
      [graphLines (df_filtered dW years_one) (countrylist dW),
       graphBars (df_filtered dW years_rest) (countrylist dW),
       graphLines (df_filtered dW years_rest) (countrylist dW),
       graphBars (df_filtered dW years_rest) (countrylist dW)] :=
  C1_build_returns_four_figures countriesW ("IND0") ("IND1") ("IND2") ("IND3") httpW
    [rawCan90, rawBra95] [rawCan90, rawBra95] [rawCan90, rawBra95] [rawCan90, rawBra95]
    rfl rfl rfl rfl (by decide) (by decide) (by decide) (by decide)
    (by decide) (by decide) (by decide)

/-- C2: the canonical country order is computed once, from the indicator
zero rows filtered to the display year subset, sorted by year ascending,
unique names in first seen order; every one of the four charts lists its
series names in exactly this order, regardless of the data of the other
indicators. -/
theorem C2_canonical_country_order
    (countries : List (String × String)) (i0 i1 i2 i3 : String)
    (http : String → Option (List RawRecord)) (raw0 raw1 raw2 raw3 : List RawRecord)
    (h0 : http (indicator_url (country_filter countries) i0) = some raw0)
    (h1 : http (indicator_url (country_filter countries) i1) = some raw1)
    (h2 : http (indicator_url (country_filter countries) i2) = some raw2)
    (h3 : http (indicator_url (country_filter countries) i3) = some raw3)
    (ha0 : allNested raw0 = true) (ha1 : allNested raw1 = true)
    (ha2 : allNested raw2 = true) (ha3 : allNested raw3 = true)
    (hn0 : raw0 ≠ []) (hn1 : raw1 ≠ []) (hn3 : raw3 ≠ []) :
    return_figures countries [i0, i1, i2, i3] http =
      Except.ok (chartFigures (raw0.map flattenPure) (raw1.map flattenPure)
        (raw3.map flattenPure)) ∧
    countrylist (raw0.map flattenPure) =
      uniqueFirstSeen
        ((df_filtered (raw0.map flattenPure) years_one).map Record.country) [] ∧
    ∀ f ∈ chartFigures (raw0.map flattenPure) (raw1.map flattenPure)
        (raw3.map flattenPure),
      f.data.map Series.name = countrylist (raw0.map flattenPure) := by
  refine ⟨return_figures_four countries i0 i1 i2 i3 http raw0 raw1 raw2 raw3
    h0 h1 h2 h3 ha0 ha1 ha2 ha3 hn0 hn1 hn3, rfl, ?_⟩
  intro f hf
  simp only [chartFigures, List.mem_cons, List.not_mem_nil, or_false] at hf
  rcases hf with h | h | h | h <;> subst h <;>
    simp [graphLines_names, graphBars_names]

/-- Witness for C2 at a concrete country mapping, indicator list and mock
collaborator. -/
theorem C2_witness :
    return_figures countriesW indicatorsW httpW = Except.ok (chartFigures dW dW dW) ∧
    countrylist dW = uniqueFirstSeen ((df_filtered dW years_one).map Record.country) [] ∧
    ∀ f ∈ chartFigures dW dW dW, f.data.map Series.name = countrylist dW :=
  C2_canonical_country_order countriesW ("IND0") ("IND1") ("IND2") ("IND3") httpW
    [rawCan90, rawBra95] [rawCan90, rawBra95] [rawCan90, rawBra95] [rawCan90, rawBra95]
    rfl rfl rfl rfl (by decide) (by decide) (by decide) (by decide)
    (by decide) (by decide) (by decide)

/-- C3: chart three is built from the indicator at index one, the same
source frame as chart two, so for every country of the canonical order the
name, x and y of the chart three series equal those of the chart two
series. -/
theorem C3_chart_three_mirrors_chart_two
    (countries : List (String × String)) (i0 i1 i2 i3 : String)
    (http : String → Option (List RawRecord)) (raw0 raw1 raw2 raw3 : List RawRecord)
    (h0 : http (indicator_url (country_filter countries) i0) = some raw0)
    (h1 : http (indicator_url (country_filter countries) i1) = some raw1)
    (h2 : http (indicator_url (country_filter countries) i2) = some raw2)
    (h3 : http (indicator_url (country_filter countries) i3) = some raw3)
    (ha0 : allNested raw0 = true) (ha1 : allNested raw1 = true)
    (ha2 : allNested raw2 = true) (ha3 : allNested raw3 = true)
    (hn0 : raw0 ≠ []) (hn1 : raw1 ≠ []) (hn3 : raw3 ≠ []) :
    return_figures countries [i0, i1, i2, i3] http =
      Except.ok (chartFigures (raw0.map flattenPure) (raw1.map flattenPure)
        (raw3.map flattenPure)) ∧
    (chartFigures (raw0.map flattenPure) (raw1.map flattenPure)
      (raw3.map flattenPure))[1]? =
      some (Figure.mk (graphBars (df_filtered (raw1.map flattenPure) years_rest)
        (countrylist (raw0.map flattenPure))) layout_two) ∧
    (chartFigures (raw0.map flattenPure) (raw1.map flattenPure)
      (raw3.map flattenPure))[2]? =
      some (Figure.mk (graphLines (df_filtered (raw1.map flattenPure) years_rest)
        (countrylist (raw0.map flattenPure))) layout_three) ∧
    (graphLines (df_filtered (raw1.map flattenPure) years_rest)
      (countrylist (raw0.map flattenPure))).map (fun s => (s.name, s.x, s.y)) =
    (graphBars (df_filtered (raw1.map flattenPure) years_rest)
      (countrylist (raw0.map flattenPure))).map (fun s => (s.name, s.x, s.y)) := by
  refine ⟨return_figures_four countries i0 i1 i2 i3 http raw0 raw1 raw2 raw3
    h0 h1 h2 h3 ha0 ha1 ha2 ha3 hn0 hn1 hn3, rfl, rfl, ?_⟩
  rw [graphLines, graphBars, List.map_map, List.map_map]
  congr 1

/-- Witness for C3 at a concrete country mapping, indicator list and mock
collaborator. -/
theorem C3_witness :
    return_figures countriesW indicatorsW httpW = Except.ok (chartFigures dW dW dW) ∧
    (chartFigures dW dW dW)[1]? =
      some (Figure.mk (graphBars (df_filtered dW years_rest) (countrylist dW)) layout_two) ∧
    (chartFigures dW dW dW)[2]? =
      some (Figure.mk (graphLines (df_filtered dW years_rest) (countrylist dW)) layout_three) ∧
    (graphLines (df_filtered dW years_rest) (countrylist dW)).map
      (fun s => (s.name, s.x, s.y)) =
    (graphBars (df_filtered dW years_rest) (countrylist dW)).map
      (fun s => (s.name, s.x, s.y)) :=
  C3_chart_three_mirrors_chart_two countriesW ("IND0") ("IND1") ("IND2") ("IND3") httpW
    [rawCan90, rawBra95] [rawCan90, rawBra95] [rawCan90, rawBra95] [rawCan90, rawBra95]
    rfl rfl rfl rfl (by decide) (by decide) (by decide) (by decide)
    (by decide) (by decide) (by decide)

/-- C9 counterexample: at a concrete run the first series of chart one is
tagged with the mode string lines+markers, which is not the line+markers tag
the claim states. -/
theorem C9_counterexample :
    firstSeriesKind (return_figures countriesW indicatorsW httpW) =
      some (SeriesKind.scatter ("lines+markers")) ∧
    SeriesKind.scatter ("lines+markers") ≠ SeriesKind.scatter ("line+markers") :=
  ⟨rfl, by decide⟩

/-- C9 amended: every successful result consists of the four figures in
order; the series of charts one and three are tagged scatter with mode
lines+markers, the series of charts two and four are tagged bar, and the
layouts of charts two and four, and only those, carry barmode stack. -/
theorem C9_series_tagging (countries : List (String × String))
    (indicators : List String) (http : String → Option (List RawRecord))
    (figs : List Figure)
    (h : return_figures countries indicators http = Except.ok figs) :
    ∃ g1 g2 g3 g4,
      figs = [Figure.mk g1 layout_one, Figure.mk g2 layout_two,
        Figure.mk g3 layout_three, Figure.mk g4 layout_four] ∧
      (∀ s ∈ g1, s.kind = SeriesKind.scatter ("lines+markers")) ∧
      (∀ s ∈ g2, s.kind = SeriesKind.bar) ∧
      (∀ s ∈ g3, s.kind = SeriesKind.scatter ("lines+markers")) ∧
      (∀ s ∈ g4, s.kind = SeriesKind.bar) ∧
      layout_one.barmode = none ∧ layout_two.barmode = some ("stack") ∧
      layout_three.barmode = none ∧ layout_four.barmode = some ("stack") := by
  obtain ⟨dfs, hfl, hcp⟩ := return_figures_ok_inv countries indicators http figs h
  obtain ⟨d0, d1, d3, e0, e1, e3, hfigs⟩ := chartPhase_ok_inv dfs figs hcp
  subst hfigs
  exact ⟨graphLines (df_filtered d0 years_one) (countrylist d0),
    graphBars (df_filtered d1 years_rest) (countrylist d0),
    graphLines (df_filtered d1 years_rest) (countrylist d0),
    graphBars (df_filtered d3 years_rest) (countrylist d0),
    rfl,
    fun s hs => graphLines_kind _ _ s hs,
    fun s hs => graphBars_kind _ _ s hs,
    fun s hs => graphLines_kind _ _ s hs,
    fun s hs => graphBars_kind _ _ s hs,
    rfl, rfl, rfl, rfl⟩

/-- Witness for the amended C9 at a concrete run. -/
theorem C9_witness :
    ∃ g1 g2 g3 g4,
      figsW = [Figure.mk g1 layout_one, Figure.mk g2 layout_two,
        Figure.mk g3 layout_three, Figure.mk g4 layout_four] ∧
      (∀ s ∈ g1, s.kind = SeriesKind.scatter ("lines+markers")) ∧
      (∀ s ∈ g2, s.kind = SeriesKind.bar) ∧
      (∀ s ∈ g3, s.kind = SeriesKind.scatter ("lines+markers")) ∧
      (∀ s ∈ g4, s.kind = SeriesKind.bar) ∧
      layout_one.barmode = none ∧ layout_two.barmode = some ("stack") ∧
      layout_three.barmode = none ∧ layout_four.barmode = some ("stack") :=
  C9_series_tagging countriesW indicatorsW httpW figsW rfl

/-- C4: year filtering is exact string match against fixed year sets; chart
one keeps only records whose date is in the set ending 2014, charts two,
three and four keep only records whose date is in the set ending 2015, and
a record dated 1992 never appears in any output series of any chart. -/
theorem C4_year_filtering :
    years_one = ["1990", "1995", "2000", "2005", "2010", "2014"] ∧
    years_rest = ["1990", "1995", "2000", "2005", "2010", "2015"] ∧
    (∀ rows years r, r ∈ df_filtered rows years ↔ r ∈ rows ∧ r.date ∈ years) ∧
    (∀ countries indicators http figs,
      return_figures countries indicators http = Except.ok figs →
      (∀ f, figs[0]? = some f → ∀ s ∈ f.data, ∀ x ∈ s.x, x ∈ years_one) ∧
      (∀ j f, (j = 1 ∨ j = 2 ∨ j = 3) → figs[j]? = some f →
        ∀ s ∈ f.data, ∀ x ∈ s.x, x ∈ years_rest) ∧
      (∀ f ∈ figs, ∀ s ∈ f.data, ("1992" : String) ∉ s.x)) := by
  refine ⟨rfl, rfl, mem_df_filtered, ?_⟩
  intro countries indicators http figs h
  obtain ⟨dfs, hfl, hcp⟩ := return_figures_ok_inv countries indicators http figs h
  obtain ⟨d0, d1, d3, e0, e1, e3, hfigs⟩ := chartPhase_ok_inv dfs figs hcp
  subst hfigs
  have k0 : ∀ s ∈ graphLines (df_filtered d0 years_one) (countrylist d0),
      ∀ x ∈ s.x, x ∈ years_one :=
    fun s hs x hx => graph_x_in_years d0 years_one (countrylist d0) _ s hs x hx
  have k1 : ∀ s ∈ graphBars (df_filtered d1 years_rest) (countrylist d0),
      ∀ x ∈ s.x, x ∈ years_rest :=
    fun s hs x hx => graph_x_in_years d1 years_rest (countrylist d0) _ s hs x hx
  have k2 : ∀ s ∈ graphLines (df_filtered d1 years_rest) (countrylist d0),
      ∀ x ∈ s.x, x ∈ years_rest :=
    fun s hs x hx => graph_x_in_years d1 years_rest (countrylist d0) _ s hs x hx
  have k3 : ∀ s ∈ graphBars (df_filtered d3 years_rest) (countrylist d0),
      ∀ x ∈ s.x, x ∈ years_rest :=
    fun s hs x hx => graph_x_in_years d3 years_rest (countrylist d0) _ s hs x hx
  refine ⟨?_, ?_, ?_⟩
  · intro f hf
    have hf1 : some (Figure.mk (graphLines (df_filtered d0 years_one)
        (countrylist d0)) layout_one) = some f := hf
    cases hf1
    exact k0
  · intro j f hj hf
    rcases hj with rfl | rfl | rfl
    · have hf1 : some (Figure.mk (graphBars (df_filtered d1 years_rest)
          (countrylist d0)) layout_two) = some f := hf
      cases hf1
      exact k1
    · have hf1 : some (Figure.mk (graphLines (df_filtered d1 years_rest)
          (countrylist d0)) layout_three) = some f := hf
      cases hf1
      exact k2
    · have hf1 : some (Figure.mk (graphBars (df_filtered d3 years_rest)
          (countrylist d0)) layout_four) = some f := hf
      cases hf1
      exact k3
  · intro f hf s hs hx
    simp only [chartFigures, List.mem_cons, List.not_mem_nil, or_false] at hf
    rcases hf with h1 | h1 | h1 | h1 <;> subst h1
    · exact absurd (k0 s hs _ hx) (by decide)
    · exact absurd (k1 s hs _ hx) (by decide)
    · exact absurd (k2 s hs _ hx) (by decide)
    · exact absurd (k3 s hs _ hx) (by decide)

/-- Witness for C4 at a concrete run. -/
theorem C4_witness :
    (∀ f, figsW[0]? = some f → ∀ s ∈ f.data, ∀ x ∈ s.x, x ∈ years_one) ∧
    (∀ j f, (j = 1 ∨ j = 2 ∨ j = 3) → figsW[j]? = some f →
      ∀ s ∈ f.data, ∀ x ∈ s.x, x ∈ years_rest) ∧
    (∀ f ∈ figsW, ∀ s ∈ f.data, ("1992" : String) ∉ s.x) :=
  C4_year_filtering.2.2.2 countriesW indicatorsW httpW figsW rfl

/-- C5: every country of the canonical order that has no rows in the
filtered data of a chart still yields a series with empty x and y rather
than being omitted, and every chart has exactly one series per country of
the canonical order, so all four data lists share its length. -/
theorem C5_empty_series_not_omitted :
    (∀ df k c, (∀ r ∈ df, r.country ≠ c) →
      seriesFor df k c = Series.mk [] [] c k) ∧
    (∀ countries indicators http figs,
      return_figures countries indicators http = Except.ok figs →
      ∃ cl, ∀ f ∈ figs, f.data.map Series.name = cl ∧ f.data.length = cl.length) := by
  constructor
  · intro df k c h
    have hf : df.filter (fun r => r.country == c) = [] := by
      rw [List.filter_eq_nil_iff]
      intro r hr
      simpa using h r hr
    rw [seriesFor, hf]
    rfl
  · intro countries indicators http figs h
    obtain ⟨dfs, hfl, hcp⟩ := return_figures_ok_inv countries indicators http figs h
    obtain ⟨d0, d1, d3, e0, e1, e3, hfigs⟩ := chartPhase_ok_inv dfs figs hcp
    subst hfigs
    refine ⟨countrylist d0, ?_⟩
    intro f hf
    simp only [chartFigures, List.mem_cons, List.not_mem_nil, or_false] at hf
    rcases hf with h1 | h1 | h1 | h1 <;> subst h1 <;>
      exact ⟨by simp [graphLines_names, graphBars_names],
        by simp [graphLines, graphBars]⟩

/-- Witness for C5: a country with no rows yields the empty series, and a
concrete successful run has a shared name list of shared length. -/
theorem C5_witness :
    seriesFor dW SeriesKind.bar ("Nowhere") = Series.mk [] [] ("Nowhere") SeriesKind.bar ∧
    ∃ cl, ∀ f ∈ figsW, f.data.map Series.name = cl ∧ f.data.length = cl.length :=
  ⟨C5_empty_series_not_omitted.1 dW SeriesKind.bar ("Nowhere") (by decide),
   C5_empty_series_not_omitted.2 countriesW indicatorsW httpW figsW rfl⟩

/-- C6 counterexample: the request for indicator A succeeds, the request for
indicator B fails, and return_figures raises a type error to the caller by
re-flattening the retained records of A, refuting both that no exception
surfaces for request level failures and that a hard failure occurs only when
no request ever succeeds. -/
theorem C6_counterexample :
    httpC6 (indicator_url (country_filter [("Canada", "CAN")]) ("A")) = some [rawCan90] ∧
    return_figures [("Canada", "CAN")] ["A", "B"] httpC6 =
      Except.error PyError.typeError :=
  ⟨rfl, rfl⟩

/-- C6 amended: a request level failure is caught and logged, but the
flattening pass that follows raises an undefined variable error when no
request has succeeded yet, raises a type error on the retained non-empty
already flattened records when a previous request succeeded, and lets
execution continue only when the retained record set is empty; when every
request succeeds with nested records the loop completes without error. -/
theorem C6_failure_semantics :
    (∀ (http : String → Option (List RawRecord)) (cf ind : String)
      (rest : List String),
      http (indicator_url cf ind) = none →
      fetchLoop http cf (ind :: rest) none = Except.error PyError.nameError) ∧
    (∀ (http : String → Option (List RawRecord)) (cf ind1 ind2 : String)
      (rest : List String) (raw : List RawRecord),
      http (indicator_url cf ind1) = some raw → allNested raw = true → raw ≠ [] →
      http (indicator_url cf ind2) = none →
      fetchLoop http cf (ind1 :: ind2 :: rest) none = Except.error PyError.typeError) ∧
    (∀ (http : String → Option (List RawRecord)) (cf ind1 ind2 : String)
      (rest : List String),
      http (indicator_url cf ind1) = some [] →
      http (indicator_url cf ind2) = none →
      fetchLoop http cf (ind1 :: ind2 :: rest) none =
        Except.map (fun dfs => [] :: [] :: dfs) (fetchLoop http cf rest (some []))) ∧
    (∀ (http : String → Option (List RawRecord)) (cf : String) (inds : List String),
      (∀ i ∈ inds, ∃ raw, http (indicator_url cf i) = some raw ∧ allNested raw = true) →
      ∃ dfs, fetchLoop http cf inds none = Except.ok dfs ∧ dfs.length = inds.length) := by
  refine ⟨?_, ?_, ?_, ?_⟩
  · intro http cf ind rest h
    simp [fetchLoop, h]
  · intro http cf ind1 ind2 rest raw h1 hnest hne h2
    obtain ⟨a, as, rfl⟩ := List.exists_cons_of_ne_nil hne
    simp [fetchLoop, h1, h2, flattenList_nested _ hnest]
  · intro http cf ind1 ind2 rest h1 h2
    cases hrec : fetchLoop http cf rest (some []) <;>
      simp [fetchLoop, h1, h2, flattenList, hrec, Except.map]
  · intro http cf inds h
    exact ⟨inds.map (respData http cf), fetchLoop_all_ok http cf inds h none,
      by simp⟩

/-- Witness for the amended C6 at concrete collaborators exhibiting each of
the four behaviors. -/
theorem C6_witness :
    fetchLoop httpNone ("can") ["A"] none = Except.error PyError.nameError ∧
    fetchLoop httpFailB ("can") ["A", "B"] none = Except.error PyError.typeError ∧
    fetchLoop httpEmptyB ("can") ["A", "B"] none =
      Except.map (fun dfs => [] :: [] :: dfs) (fetchLoop httpEmptyB ("can") [] (some [])) ∧
    (∃ dfs, fetchLoop httpW ("can") ["A", "B"] none = Except.ok dfs ∧
      dfs.length = (["A", "B"] : List String).length) :=
  ⟨C6_failure_semantics.1 httpNone ("can") ("A") [] rfl,
   C6_failure_semantics.2.1 httpFailB ("can") ("A") ("B") [] [rawCan90]
     (by decide) (by decide) (by decide) (by decide),
   C6_failure_semantics.2.2.1 httpEmptyB ("can") ("A") ("B") []
     (by decide) (by decide),
   C6_failure_semantics.2.2.2 httpW ("can") ["A", "B"]
     (fun i _ => ⟨[rawCan90, rawBra95], rfl, rfl⟩)⟩

/-- C7 counterexample: the URL built for a concrete country mapping and
indicator uses the plain http scheme, not the https scheme the claim
states. -/
theorem C7_counterexample :
    urls_for [("Canada", "CAN")] ["EG.USE.ELEC.KH.PC"] =
      ["http://api.worldbank.org/v2/country/can/indicator/EG.USE.ELEC.KH.PC?date=1990:2015&per_page=1000&format=json"] ∧
    ("http://api.worldbank.org/v2/country/can/indicator/EG.USE.ELEC.KH.PC?date=1990:2015&per_page=1000&format=json" : String) ≠
      "https://api.worldbank.org/v2/country/can/indicator/EG.USE.ELEC.KH.PC?date=1990:2015&per_page=1000&format=json" :=
  ⟨by decide, by decide⟩

/-- C7 amended: the country filter is the ISO-3 codes of the mapping, lower
cased, joined with semicolons, and for each indicator code, in list order,
exactly one URL is built embedding the filter, the code, the fixed date
range 1990 to 2015, page size 1000 and JSON format, on the plain http
scheme. -/
theorem C7_url_construction (countries : List (String × String))
    (inds : List String) :
    country_filter countries =
      String.intercalate (";") (countries.map (fun p => strToLower p.2)) ∧
    urls_for countries inds = inds.map (fun code =>
      "http://api.worldbank.org/v2/country/" ++ country_filter countries ++
        "/indicator/" ++ code ++ "?date=1990:2015&per_page=1000&format=json") ∧
    (urls_for countries inds).length = inds.length := by
  refine ⟨?_, rfl, by simp [urls_for]⟩
  rw [country_filter, List.map_map]
  congr 1

/-- C8: calling return_figures twice with the same arguments and the same
collaborator responses yields structurally identical outputs, and the
module state holding the default tables is unchanged by a call, so no
hidden mutable shared state carries over between calls. -/
theorem C8_idempotent_calls (s : ModuleState)
    (countriesArg : Option (List (String × String)))
    (indicatorsArg : Option (List String))
    (http : String → Option (List RawRecord)) :
    (buildCall (buildCall s countriesArg indicatorsArg http).2
      countriesArg indicatorsArg http).1 =
      (buildCall s countriesArg indicatorsArg http).1 ∧
    (buildCall (buildCall s countriesArg indicatorsArg http).2
      countriesArg indicatorsArg http).2 = s :=
  ⟨rfl, rfl⟩

/-- C10: return_figures leaves both of its arguments unchanged; the state
threaded translation returns the countries mapping and the indicators list
exactly as they came in. -/
theorem C10_arguments_unchanged (countries : List (String × String))
    (indicators : List String) (http : String → Option (List RawRecord)) :
    (return_figures_tracked countries indicators http).2.1 = countries ∧
    (return_figures_tracked countries indicators http).2.2 = indicators :=
  ⟨rfl, rfl⟩

end GetData
